import Mathlib

/-!
Shallow embedding of the Custom Events component panel of the Godot
Orchestrator plugin (class `OrchestratorScriptCustomEventsComponentPanel`,
file `src/editor/component_panels/custom_events_panel.cpp`).

The panel is UI glue: each virtual-hook override is embedded as a pure
function from the panel's observable environment (the orchestration's
responses, the tree's current selection) to its return value together with
a trace of the side effects it performs (notifications shown, domain
operations invoked, UI flows triggered).  The orchestration itself is
external to this fragment and is modelled as a record of response
functions; base-class helpers that are repository code not included in the
excerpt (`_clear_tree`, `_create_item`, `_get_tree_item_name`, notification
display) are modelled from the spec and marked as such.
-/

namespace CustomEventsPanel

/-- Godot `MethodInfo` of a signal.  Only its identity matters to this
panel (the drag payload packages it opaquely), so it is modelled by its
name. -/
structure MethodInfo where
  name : String
  deriving DecidableEq, Repr

/-- `OScriptSignal`: a custom event declaration resource.  The panel only
ever reads its method info (`get_method_info`). -/
structure OScriptSignal where
  method_info : MethodInfo
  deriving DecidableEq, Repr

/-- A godot `Ref<T>` is either a valid reference to a T or invalid (null);
modelled as `Option`.  `Ref::is_valid()` holds exactly on `some`. -/
def Ref.is_valid {α : Type} (r : Option α) : Bool := r.isSome

/-- Godot `Variant` values that can appear in the drag-data `Dictionary`
built by this panel: strings and packaged method-info dictionaries. -/
inductive GVariant where
  | str (s : String)
  | methodDict (m : MethodInfo)
  deriving DecidableEq, Repr

/-- Godot `Dictionary`, restricted to the string-keyed entries this panel
creates; an association list in insertion order. -/
abbrev GDictionary := List (String × GVariant)

/-- Modelled from the spec: `DictionaryUtils::from_method`
(`common/dictionary_utils.h`, repository code not in the excerpt) packages
a `MethodInfo` as a dictionary value; its internal layout is opaque to the
panel, so it is modelled as an injective packaging constructor. -/
def DictionaryUtils.from_method (m : MethodInfo) : GVariant :=
  GVariant.methodDict m

/-- A tree item as this panel observes and produces it: displayed label,
identifying name, icon tag and selectability. -/
structure TreeItem where
  text : String
  itemName : String
  icon : String
  selectable : Bool
  deriving DecidableEq, Repr

/-- The tree widget state this panel manipulates: the children of the
(hidden) root item. -/
structure UITree where
  rootChildren : List TreeItem
  deriving DecidableEq, Repr

/-- Godot `Vector2` drag position.  Its coordinates are floating point and
entirely unused by `_handle_drag_data`, so it is modelled opaquely. -/
structure Vector2 where
  deriving DecidableEq, Repr

/-- Input events as the tree gui-input handler distinguishes them: key
events carry pressed / echo flags and a keycode; `nonKey` stands for every
event for which the `Ref<InputEventKey>` cast yields an invalid ref. -/
inductive InputEvent where
  | key (pressed : Bool) (echo : Bool) (keycode : Nat)
  | nonKey
  deriving DecidableEq, Repr

/-- The `Orchestration` domain interface as consumed by this panel: its
observable responses during one handler invocation.  References returned
by lookups are `Option` (invalid ref = `none`). -/
structure Orchestration where
  get_custom_event_names : List String
  get_custom_event : String → Option OScriptSignal
  find_custom_event : String → Option OScriptSignal
  create_custom_event : String → Option OScriptSignal
  rename_custom_user_event : String → String → Bool

/-- Side effects a handler performs, in order.  `showNotification`,
`showInvalidName`, `editSelectedTreeItem`, `confirmRemoval` are base-class
flows (`_show_notification`, `_show_invalid_name`,
`_edit_selected_tree_item`, `_confirm_removal`) modelled from the spec as
opaque; `acceptEvent` is the host's input-consumption call; the
`…CustomEvent` constructors record invocations of the orchestration's
mutating operations. -/
inductive Effect where
  | showNotification (message : String)
  | showInvalidName (what : String) (fromCreate : Bool)
  | renameCustomUserEvent (oldName newName : String)
  | createCustomEvent (name : String)
  | removeCustomEvent (name : String)
  | editResource (signal : Option OScriptSignal)
  | editSelectedTreeItem
  | confirmRemoval (item : Option TreeItem)
  | acceptEvent
  deriving DecidableEq, Repr

/-- An effect mutates the orchestration document exactly when it invokes
one of its mutating operations. -/
def Effect.mutatesOrchestration : Effect → Bool
  | Effect.renameCustomUserEvent _ _ => true
  | Effect.createCustomEvent _ => true
  | Effect.removeCustomEvent _ => true
  | _ => false

/-- Godot `String::is_valid_identifier` (godot-cpp host library): nonempty,
every character an ASCII letter, digit or underscore, and the first
character not a digit. -/
def is_valid_identifier (s : String) : Bool :=
  !s.isEmpty && !s.front.isDigit &&
    s.toList.all fun c =>
      (('a' ≤ c && c ≤ 'z') || ('A' ≤ c && c ≤ 'Z') ||
       ('0' ≤ c && c ≤ '9') || c = '_')

/-- Context-menu id `CM_RENAME_EVENT` (first member of `ContextMenuIds`). -/
def CM_RENAME_EVENT : Nat := 0

/-- Context-menu id `CM_REMOVE_EVENT` (second member of `ContextMenuIds`). -/
def CM_REMOVE_EVENT : Nat := 1

/-- Godot keycode `KEY_F2`. -/
def KEY_F2 : Nat := 4194333

/-- Godot keycode `KEY_DELETE`. -/
def KEY_DELETE : Nat := 4194312

/-- The panel's observable environment during one handler invocation: the
orchestration it adapts (`_orchestration`) and the tree's current
selection (`_tree->get_selected()`, `none` when no item is selected). -/
structure OrchestratorScriptCustomEventsComponentPanel where
  orchestration : Orchestration
  treeSelected : Option TreeItem

namespace OrchestratorScriptCustomEventsComponentPanel

/-- Modelled from the spec: base-class helper `_get_tree_item_name`
(`component_panel.cpp`, repository code not in the excerpt) returns the
identifying name of a tree item. -/
def _get_tree_item_name (item : TreeItem) : String := item.itemName

/-- `_get_existing_names`: returns the orchestration's current custom
event names. -/
def _get_existing_names (p : OrchestratorScriptCustomEventsComponentPanel) : List String :=
  p.orchestration.get_custom_event_names

/-- `_handle_context_menu`: dispatches a context-menu id to the rename or
removal flow. -/
def _handle_context_menu (p : OrchestratorScriptCustomEventsComponentPanel) (p_id : Nat) :
    List Effect :=
  if p_id = CM_RENAME_EVENT then [Effect.editSelectedTreeItem]
  else if p_id = CM_REMOVE_EVENT then [Effect.confirmRemoval p.treeSelected]
  else []

/-- `_handle_add_new_item`: asks the orchestration to create the event and
succeeds iff the returned ref is valid. -/
def _handle_add_new_item (p : OrchestratorScriptCustomEventsComponentPanel) (p_name : String) :
    Bool × List Effect :=
  (Ref.is_valid (p.orchestration.create_custom_event p_name), [Effect.createCustomEvent p_name])

/-- `_handle_item_selected`: opens the selected item's event resource in
the editor's inspector.  (The source dereferences the selection without a
null check; the no-selection case is undefined behaviour there and not
exercised by any claim, modelled as a no-op.) -/
def _handle_item_selected (p : OrchestratorScriptCustomEventsComponentPanel) : List Effect :=
  match p.treeSelected with
  | some item => [Effect.editResource (p.orchestration.get_custom_event (_get_tree_item_name item))]
  | none => []

/-- `_handle_item_activated`: opens the given item's event resource in the
editor's inspector. -/
def _handle_item_activated (p : OrchestratorScriptCustomEventsComponentPanel)
    (p_item : TreeItem) : List Effect :=
  [Effect.editResource (p.orchestration.get_custom_event (_get_tree_item_name p_item))]

/-- `_handle_item_renamed`: rejects a duplicate name with a notification,
then a non-identifier name with an invalid-name notice, and otherwise
delegates to `rename_custom_user_event`. -/
def _handle_item_renamed (p : OrchestratorScriptCustomEventsComponentPanel)
    (p_old_name p_new_name : String) : Bool × List Effect :=
  if (p._get_existing_names).contains p_new_name then
    (false,
     [Effect.showNotification ("An event with the name '" ++ p_new_name ++ "' already exists.")])
  else if !(is_valid_identifier p_new_name) then
    (false, [Effect.showInvalidName "event" false])
  else
    (p.orchestration.rename_custom_user_event p_old_name p_new_name,
     [Effect.renameCustomUserEvent p_old_name p_new_name])

/-- `_handle_remove`: unconditionally asks the orchestration to remove the
item's event. -/
def _handle_remove (p : OrchestratorScriptCustomEventsComponentPanel)
    (p_item : TreeItem) : List Effect :=
  [Effect.removeCustomEvent (_get_tree_item_name p_item)]

/-- `_handle_drag_data`: packages the selected item's event as a drag
payload when it resolves to a valid signal, and an empty dictionary
otherwise. -/
def _handle_drag_data (p : OrchestratorScriptCustomEventsComponentPanel)
    (p_position : Vector2) : GDictionary :=
  match p.treeSelected with
  | none => []
  | some selected =>
    match p.orchestration.find_custom_event (_get_tree_item_name selected) with
    | some signal =>
        [("type", GVariant.str "signal"),
         ("signals", DictionaryUtils.from_method signal.method_info)]
    | none => []

/-- `_handle_tree_gui_input`: on a pressed, non-echo F2 or Delete key
event, triggers the rename or removal flow through `_handle_context_menu`
and consumes the event. -/
def _handle_tree_gui_input (p : OrchestratorScriptCustomEventsComponentPanel)
    (p_event : InputEvent) (p_item : Option TreeItem) : List Effect :=
  match p_event with
  | InputEvent.key pressed echo keycode =>
    if pressed && !echo then
      if keycode = KEY_F2 then
        p._handle_context_menu CM_RENAME_EVENT ++ [Effect.acceptEvent]
      else if keycode = KEY_DELETE then
        p._handle_context_menu CM_REMOVE_EVENT ++ [Effect.acceptEvent]
      else []
    else []
  | InputEvent.nonKey => []

/-- Modelled from the spec: base-class `_clear_tree` (`component_panel.cpp`,
repository code not in the excerpt) fully clears the tree and recreates the
bare root, so no prior items survive. -/
def _clear_tree (_t : UITree) : UITree := { rootChildren := [] }

/-- Modelled from the spec: base-class `_create_item` (`component_panel.cpp`,
repository code not in the excerpt) inserts one selectable leaf under the
given root with the given label, name and icon tag. -/
def _create_item (t : UITree) (p_text p_name p_icon : String) : UITree :=
  { rootChildren :=
      t.rootChildren ++ [{ text := p_text, itemName := p_name, icon := p_icon, selectable := true }] }

/-- `update`: clears the tree; when there are event names, sorts them and
inserts one leaf per name with icon tag "MemberSignal"; when the root then
has no children, inserts the non-selectable "No signals defined"
placeholder and returns early.  The returned flag records whether the
base-class `OrchestratorScriptComponentPanel::update()` was invoked. -/
def update (p : OrchestratorScriptCustomEventsComponentPanel) (t : UITree) : UITree × Bool :=
  let t1 := _clear_tree t
  let signal_names := p.orchestration.get_custom_event_names
  let t2 :=
    if signal_names.isEmpty then t1
    else
      (signal_names.mergeSort fun a b => decide (a ≤ b)).foldl
        (fun acc n => _create_item acc n n "MemberSignal") t1
  if t2.rootChildren.length = 0 then
    ({ rootChildren :=
        t2.rootChildren ++
          [{ text := "No signals defined", itemName := "", icon := "", selectable := false }] },
     false)
  else
    (t2, true)

end OrchestratorScriptCustomEventsComponentPanel

open OrchestratorScriptCustomEventsComponentPanel

/-! ### Concrete instances used by the witnesses -/

/-- A concrete signal resource named "foo". -/
def sigFoo : OScriptSignal := { method_info := { name := "foo" } }

/-- A concrete orchestration owning the single custom event "foo"; lookups
resolve exactly that name, creation fails on the taken name "foo" and
succeeds otherwise, and renames succeed. -/
def orch0 : Orchestration :=
  { get_custom_event_names := ["foo"]
    get_custom_event := fun n => if n = "foo" then some sigFoo else none
    find_custom_event := fun n => if n = "foo" then some sigFoo else none
    create_custom_event := fun n => if n = "foo" then none else some { method_info := { name := n } }
    rename_custom_user_event := fun _ _ => true }

/-- The orchestration with no custom events at all. -/
def orchEmpty : Orchestration :=
  { get_custom_event_names := []
    get_custom_event := fun _ => none
    find_custom_event := fun _ => none
    create_custom_event := fun _ => none
    rename_custom_user_event := fun _ _ => false }

/-- The tree item displaying the event "foo". -/
def itemFoo : TreeItem :=
  { text := "foo", itemName := "foo", icon := "MemberSignal", selectable := true }

/-- A tree item whose name resolves to no event of `orch0`. -/
def itemGhost : TreeItem :=
  { text := "ghost", itemName := "ghost", icon := "MemberSignal", selectable := true }

/-- Panel over `orch0` with nothing selected. -/
def panel0 : OrchestratorScriptCustomEventsComponentPanel :=
  { orchestration := orch0, treeSelected := none }

/-- Panel over `orch0` with the "foo" item selected. -/
def panelSel : OrchestratorScriptCustomEventsComponentPanel :=
  { orchestration := orch0, treeSelected := some itemFoo }

/-- Panel over `orch0` with an unresolvable item selected. -/
def panelGhost : OrchestratorScriptCustomEventsComponentPanel :=
  { orchestration := orch0, treeSelected := some itemGhost }

/-- Panel over the empty orchestration. -/
def panelEmpty : OrchestratorScriptCustomEventsComponentPanel :=
  { orchestration := orchEmpty, treeSelected := none }

/-- A tree holding a stale item, to exercise the full clear on update. -/
def tree0 : UITree :=
  { rootChildren := [{ text := "stale", itemName := "stale", icon := "", selectable := true }] }

/-- The empty tree. -/
def treeNil : UITree := { rootChildren := [] }

/-! ### Shared helper lemmas -/

/-- Folding `_create_item` over a name list appends one "MemberSignal"
leaf per name, in list order. -/
theorem foldl_create_item (l : List String) (t : UITree) :
    l.foldl (fun acc n => _create_item acc n n "MemberSignal") t
      = { rootChildren :=
            t.rootChildren
              ++ l.map (fun n =>
                  { text := n, itemName := n, icon := "MemberSignal", selectable := true }) } := by
  induction l generalizing t with
  | nil => simp
  | cons x xs ih =>
    rw [List.foldl_cons, ih]
    simp [_create_item]

/-- The sorted name list is pairwise `≤`-ordered. -/
theorem pairwise_mergeSort_names (l : List String) :
    List.Pairwise (fun a b => a ≤ b) (l.mergeSort fun a b => decide (a ≤ b)) := by
  have h := @List.sorted_mergeSort String (fun a b => decide (a ≤ b))
    (fun a b c hab hbc => by
      simp only [decide_eq_true_iff] at *
      exact le_trans hab hbc)
    (fun a b => by
      simp only [Bool.or_eq_true, decide_eq_true_iff]
      exact le_total a b) l
  exact h.imp fun hab => of_decide_eq_true hab

/-- Evaluation of `update` when the orchestration has at least one event
name: every sorted name becomes one leaf and the base update is invoked. -/
theorem update_eq_of_ne_nil (p : OrchestratorScriptCustomEventsComponentPanel) (t : UITree)
    (h : p.orchestration.get_custom_event_names ≠ []) :
    p.update t =
      ({ rootChildren :=
          (p.orchestration.get_custom_event_names.mergeSort fun a b => decide (a ≤ b)).map
            (fun n =>
              { text := n, itemName := n, icon := "MemberSignal", selectable := true }) },
       true) := by
  have hne : p.orchestration.get_custom_event_names.isEmpty = false :=
    List.isEmpty_eq_false.2 h
  have hfold := foldl_create_item
    (p.orchestration.get_custom_event_names.mergeSort fun a b => decide (a ≤ b))
    { rootChildren := [] }
  have hlen :
      ((p.orchestration.get_custom_event_names.mergeSort fun a b => decide (a ≤ b)).map
        (fun n =>
          ({ text := n, itemName := n, icon := "MemberSignal", selectable := true } : TreeItem))).length
        ≠ 0 := by
    simp only [List.length_map, List.length_mergeSort]
    simpa [List.length_eq_zero] using h
  simp only [update, _clear_tree, hne, Bool.false_eq_true, if_false]
  rw [hfold]
  simp [hlen]
  exact h

/-- Evaluation of `update` when the orchestration has no event names: the
placeholder is inserted and the base update is skipped. -/
theorem update_eq_of_nil (p : OrchestratorScriptCustomEventsComponentPanel) (t : UITree)
    (h : p.orchestration.get_custom_event_names = []) :
    p.update t =
      ({ rootChildren :=
          [{ text := "No signals defined", itemName := "", icon := "", selectable := false }] },
       false) := by
  simp [update, _clear_tree, h]

/-! ### Claim theorems -/

/-- C1: for every proposed new name already present in the set returned by
`_get_existing_names`, `_handle_item_renamed` returns false, shows the
"name already exists" notification, never invokes the orchestration's
rename operation, and performs no orchestration-mutating effect at all (so
the orchestration is left unchanged). -/
theorem C1_rename_duplicate_rejected (p : OrchestratorScriptCustomEventsComponentPanel)
    (p_old_name p_new_name : String) (h : p_new_name ∈ p._get_existing_names) :
    (p._handle_item_renamed p_old_name p_new_name).1 = false ∧
    (p._handle_item_renamed p_old_name p_new_name).2 =
      [Effect.showNotification
        ("An event with the name '" ++ p_new_name ++ "' already exists.")] ∧
    (∀ a b, Effect.renameCustomUserEvent a b ∉ (p._handle_item_renamed p_old_name p_new_name).2) ∧
    (∀ e ∈ (p._handle_item_renamed p_old_name p_new_name).2, e.mutatesOrchestration = false) := by
  refine ⟨?_, ?_, ?_, ?_⟩ <;>
    simp [_handle_item_renamed, h, Effect.mutatesOrchestration]

/-- C1 witness: on the concrete panel owning "foo", renaming "bar" to the
taken name "foo" is rejected and the rename operation is not invoked. -/
theorem C1_rename_duplicate_rejected_witness :
    "foo" ∈ panel0._get_existing_names ∧
    (panel0._handle_item_renamed "bar" "foo").1 = false ∧
    Effect.renameCustomUserEvent "bar" "foo" ∉ (panel0._handle_item_renamed "bar" "foo").2 :=
  ⟨by decide, (C1_rename_duplicate_rejected panel0 "bar" "foo" (by decide)).1,
   (C1_rename_duplicate_rejected panel0 "bar" "foo" (by decide)).2.2.1 "bar" "foo"⟩

/-- C2: for every proposed new name that is not a valid identifier,
`_handle_item_renamed` returns false with the invalid-name notification and
no rename invocation when the name is not already taken; and because the
duplicate check runs first, when the name is also already taken the "name
already exists" notification is the one shown. -/
theorem C2_rename_invalid_identifier_rejected
    (p : OrchestratorScriptCustomEventsComponentPanel) (p_old_name p_new_name : String)
    (hinv : is_valid_identifier p_new_name = false) :
    (p_new_name ∉ p._get_existing_names →
      (p._handle_item_renamed p_old_name p_new_name).1 = false ∧
      (p._handle_item_renamed p_old_name p_new_name).2 = [Effect.showInvalidName "event" false] ∧
      ∀ a b, Effect.renameCustomUserEvent a b ∉ (p._handle_item_renamed p_old_name p_new_name).2) ∧
    (p_new_name ∈ p._get_existing_names →
      (p._handle_item_renamed p_old_name p_new_name).2 =
        [Effect.showNotification
          ("An event with the name '" ++ p_new_name ++ "' already exists.")]) := by
  constructor
  · intro hmem
    refine ⟨?_, ?_, ?_⟩ <;> simp [_handle_item_renamed, hmem, hinv]
  · intro hmem
    simp [_handle_item_renamed, hmem]

/-- C2 witness: on the concrete panel owning "foo", renaming "foo" to the
non-identifier "1bad" (not a taken name) is rejected with the invalid-name
notice and no rename invocation. -/
theorem C2_rename_invalid_identifier_rejected_witness :
    is_valid_identifier "1bad" = false ∧
    "1bad" ∉ panel0._get_existing_names ∧
    (panel0._handle_item_renamed "foo" "1bad").1 = false ∧
    (panel0._handle_item_renamed "foo" "1bad").2 = [Effect.showInvalidName "event" false] :=
  ⟨by decide, by decide,
   ((C2_rename_invalid_identifier_rejected panel0 "foo" "1bad" (by decide)).1 (by decide)).1,
   ((C2_rename_invalid_identifier_rejected panel0 "foo" "1bad" (by decide)).1 (by decide)).2.1⟩

/-- C3: for every proposed new name that is a valid identifier and not in
the existing-names set, `_handle_item_renamed` invokes
`rename_custom_user_event old new` exactly once, returns exactly its
boolean result, and shows no notification. -/
theorem C3_rename_valid_unique_delegates
    (p : OrchestratorScriptCustomEventsComponentPanel) (p_old_name p_new_name : String)
    (hmem : p_new_name ∉ p._get_existing_names)
    (hvalid : is_valid_identifier p_new_name = true) :
    (p._handle_item_renamed p_old_name p_new_name).1 =
      p.orchestration.rename_custom_user_event p_old_name p_new_name ∧
    (p._handle_item_renamed p_old_name p_new_name).2 =
      [Effect.renameCustomUserEvent p_old_name p_new_name] ∧
    (p._handle_item_renamed p_old_name p_new_name).2.count
      (Effect.renameCustomUserEvent p_old_name p_new_name) = 1 ∧
    (∀ m, Effect.showNotification m ∉ (p._handle_item_renamed p_old_name p_new_name).2) ∧
    (∀ w b, Effect.showInvalidName w b ∉ (p._handle_item_renamed p_old_name p_new_name).2) := by
  refine ⟨?_, ?_, ?_, ?_, ?_⟩ <;> simp [_handle_item_renamed, hmem, hvalid]

/-- C3 witness: on the concrete panel owning "foo", renaming "foo" to the
fresh valid identifier "bar" delegates to the orchestration and returns
its result. -/
theorem C3_rename_valid_unique_delegates_witness :
    is_valid_identifier "bar" = true ∧
    "bar" ∉ panel0._get_existing_names ∧
    (panel0._handle_item_renamed "foo" "bar").1 =
      panel0.orchestration.rename_custom_user_event "foo" "bar" ∧
    (panel0._handle_item_renamed "foo" "bar").2 =
      [Effect.renameCustomUserEvent "foo" "bar"] :=
  ⟨by decide, by decide,
   (C3_rename_valid_unique_delegates panel0 "foo" "bar" (by decide) (by decide)).1,
   (C3_rename_valid_unique_delegates panel0 "foo" "bar" (by decide) (by decide)).2.1⟩

/-- C10: renaming an event to its own current name is rejected with the
"name already exists" notification and the rename operation is never
invoked, whenever the old name is (as `_get_existing_names` guarantees for
an existing event) in the existing-names set. -/
theorem C10_rename_to_self_rejected (p : OrchestratorScriptCustomEventsComponentPanel)
    (p_old_name : String) (h : p_old_name ∈ p._get_existing_names) :
    (p._handle_item_renamed p_old_name p_old_name).1 = false ∧
    (p._handle_item_renamed p_old_name p_old_name).2 =
      [Effect.showNotification
        ("An event with the name '" ++ p_old_name ++ "' already exists.")] ∧
    ∀ a b, Effect.renameCustomUserEvent a b ∉ (p._handle_item_renamed p_old_name p_old_name).2 := by
  refine ⟨?_, ?_, ?_⟩ <;> simp [_handle_item_renamed, h]

/-- C10 witness: on the concrete panel owning "foo", the no-op rename of
"foo" to "foo" is rejected and the rename operation is not invoked. -/
theorem C10_rename_to_self_rejected_witness :
    "foo" ∈ panel0._get_existing_names ∧
    (panel0._handle_item_renamed "foo" "foo").1 = false ∧
    Effect.renameCustomUserEvent "foo" "foo" ∉ (panel0._handle_item_renamed "foo" "foo").2 :=
  ⟨by decide, (C10_rename_to_self_rejected panel0 "foo" (by decide)).1,
   (C10_rename_to_self_rejected panel0 "foo" (by decide)).2.2 "foo" "foo"⟩

/-- C4: after every `update`, with zero event names the root has exactly
the single non-selectable "No signals defined" placeholder; with N>0 names
exactly N selectable "MemberSignal" leaves whose labels are those names in
lexicographic order; and the result does not depend on the prior tree
contents, so no stale items survive the rebuild. -/
theorem C4_update_renders_sorted_names (p : OrchestratorScriptCustomEventsComponentPanel)
    (t t' : UITree) :
    (p.orchestration.get_custom_event_names = [] →
      (p.update t).1.rootChildren =
        [{ text := "No signals defined", itemName := "", icon := "", selectable := false }]) ∧
    (p.orchestration.get_custom_event_names ≠ [] →
      (p.update t).1.rootChildren.length = p.orchestration.get_custom_event_names.length ∧
      ((p.update t).1.rootChildren.map TreeItem.text).Perm
        p.orchestration.get_custom_event_names ∧
      List.Pairwise (fun a b => a ≤ b) ((p.update t).1.rootChildren.map TreeItem.text) ∧
      ∀ item ∈ (p.update t).1.rootChildren,
        item.icon = "MemberSignal" ∧ item.selectable = true) ∧
    p.update t = p.update t' := by
  refine ⟨?_, ?_, rfl⟩
  · intro h
    rw [update_eq_of_nil p t h]
  · intro h
    rw [update_eq_of_ne_nil p t h]
    have hmap :
        (TreeItem.text ∘ fun n =>
          ({ text := n, itemName := n, icon := "MemberSignal", selectable := true } : TreeItem))
          = id := rfl
    refine ⟨?_, ?_, ?_, ?_⟩
    · simp [List.length_map, List.length_mergeSort]
    · rw [List.map_map, hmap, List.map_id]
      exact List.mergeSort_perm p.orchestration.get_custom_event_names fun a b => decide (a ≤ b)
    · rw [List.map_map, hmap, List.map_id]
      exact pairwise_mergeSort_names p.orchestration.get_custom_event_names
    · intro item hitem
      simp only [List.mem_map] at hitem
      obtain ⟨n, _, rfl⟩ := hitem
      exact ⟨rfl, rfl⟩

/-- C4 witness: the empty orchestration renders the placeholder row; the
one-event orchestration renders one leaf per name; and updating a tree
holding a stale item gives the same result as updating the empty tree. -/
theorem C4_update_renders_sorted_names_witness :
    panelEmpty.orchestration.get_custom_event_names = [] ∧
    (panelEmpty.update tree0).1.rootChildren =
      [{ text := "No signals defined", itemName := "", icon := "", selectable := false }] ∧
    panel0.orchestration.get_custom_event_names ≠ [] ∧
    (panel0.update tree0).1.rootChildren.length =
      panel0.orchestration.get_custom_event_names.length ∧
    panel0.update tree0 = panel0.update treeNil :=
  ⟨rfl, (C4_update_renders_sorted_names panelEmpty tree0 tree0).1 rfl, by decide,
   ((C4_update_renders_sorted_names panel0 tree0 treeNil).2.1 (by decide)).1,
   (C4_update_renders_sorted_names panel0 tree0 treeNil).2.2⟩

/-- C5: the drag-data handler returns the empty dictionary when nothing is
selected or the selected item's name does not resolve through
`find_custom_event`, and otherwise the payload mapping "type" to "signal"
and "signals" to the packaged method info of the resolved signal. -/
theorem C5_drag_data_payload (p : OrchestratorScriptCustomEventsComponentPanel)
    (p_position : Vector2) :
    (p.treeSelected = none → p._handle_drag_data p_position = []) ∧
    (∀ item, p.treeSelected = some item →
      (p.orchestration.find_custom_event (_get_tree_item_name item) = none →
        p._handle_drag_data p_position = []) ∧
      (∀ sig, p.orchestration.find_custom_event (_get_tree_item_name item) = some sig →
        p._handle_drag_data p_position =
          [("type", GVariant.str "signal"),
           ("signals", DictionaryUtils.from_method sig.method_info)])) := by
  refine ⟨?_, ?_⟩
  · intro h
    simp [_handle_drag_data, h]
  · intro item hsel
    refine ⟨?_, ?_⟩
    · intro hfind
      simp [_handle_drag_data, hsel, hfind]
    · intro sig hfind
      simp [_handle_drag_data, hsel, hfind]

/-- C5 witness: no selection and an unresolvable selection give the empty
payload on the concrete panels; the resolvable "foo" selection gives the
signal payload. -/
theorem C5_drag_data_payload_witness :
    panel0.treeSelected = none ∧
    panel0._handle_drag_data Vector2.mk = [] ∧
    panelGhost.orchestration.find_custom_event (_get_tree_item_name itemGhost) = none ∧
    panelGhost._handle_drag_data Vector2.mk = [] ∧
    panelSel.orchestration.find_custom_event (_get_tree_item_name itemFoo) = some sigFoo ∧
    panelSel._handle_drag_data Vector2.mk =
      [("type", GVariant.str "signal"),
       ("signals", DictionaryUtils.from_method sigFoo.method_info)] :=
  ⟨rfl, (C5_drag_data_payload panel0 Vector2.mk).1 rfl, by decide,
   ((C5_drag_data_payload panelGhost Vector2.mk).2 itemGhost rfl).1 (by decide),
   by decide,
   ((C5_drag_data_payload panelSel Vector2.mk).2 itemFoo rfl).2 sigFoo (by decide)⟩

/-- C6: a pressed, non-echo F2 key event triggers the rename flow and
consumes the event; a pressed, non-echo Delete key event triggers the
remove-confirmation flow and consumes the event; any other keycode, any
non-pressed or echo key event, and any non-key event trigger nothing and
consume nothing. -/
theorem C6_tree_gui_input_dispatch (p : OrchestratorScriptCustomEventsComponentPanel)
    (p_item : Option TreeItem) (pressed echo : Bool) (kc : Nat) :
    (pressed = true → echo = false → kc = KEY_F2 →
      p._handle_tree_gui_input (InputEvent.key pressed echo kc) p_item =
        [Effect.editSelectedTreeItem, Effect.acceptEvent]) ∧
    (pressed = true → echo = false → kc = KEY_DELETE →
      p._handle_tree_gui_input (InputEvent.key pressed echo kc) p_item =
        [Effect.confirmRemoval p.treeSelected, Effect.acceptEvent]) ∧
    (kc ≠ KEY_F2 → kc ≠ KEY_DELETE →
      p._handle_tree_gui_input (InputEvent.key pressed echo kc) p_item = []) ∧
    (pressed = false →
      p._handle_tree_gui_input (InputEvent.key pressed echo kc) p_item = []) ∧
    (echo = true →
      p._handle_tree_gui_input (InputEvent.key pressed echo kc) p_item = []) ∧
    p._handle_tree_gui_input InputEvent.nonKey p_item = [] := by
  refine ⟨?_, ?_, ?_, ?_, ?_, rfl⟩
  · intro hp he hk
    subst hp; subst he; subst hk
    simp [_handle_tree_gui_input, _handle_context_menu, CM_RENAME_EVENT, CM_REMOVE_EVENT]
  · intro hp he hk
    subst hp; subst he; subst hk
    simp [_handle_tree_gui_input, _handle_context_menu, CM_RENAME_EVENT, CM_REMOVE_EVENT,
      KEY_F2, KEY_DELETE]
  · intro h1 h2
    cases pressed <;> cases echo <;> simp [_handle_tree_gui_input, h1, h2]
  · intro hp
    subst hp
    simp [_handle_tree_gui_input]
  · intro he
    subst he
    simp [_handle_tree_gui_input]

/-- C6 witness: concrete F2, Delete, letter-A, echo, release and non-key
events dispatch as claimed on the concrete panel. -/
theorem C6_tree_gui_input_dispatch_witness :
    panelSel._handle_tree_gui_input (InputEvent.key true false KEY_F2) none =
      [Effect.editSelectedTreeItem, Effect.acceptEvent] ∧
    panelSel._handle_tree_gui_input (InputEvent.key true false KEY_DELETE) none =
      [Effect.confirmRemoval panelSel.treeSelected, Effect.acceptEvent] ∧
    panelSel._handle_tree_gui_input (InputEvent.key true false 65) none = [] ∧
    panelSel._handle_tree_gui_input (InputEvent.key true true KEY_F2) none = [] ∧
    panelSel._handle_tree_gui_input (InputEvent.key false false KEY_DELETE) none = [] ∧
    panelSel._handle_tree_gui_input InputEvent.nonKey none = [] :=
  ⟨(C6_tree_gui_input_dispatch panelSel none true false KEY_F2).1 rfl rfl rfl,
   (C6_tree_gui_input_dispatch panelSel none true false KEY_DELETE).2.1 rfl rfl rfl,
   (C6_tree_gui_input_dispatch panelSel none true false 65).2.2.1 (by decide) (by decide),
   (C6_tree_gui_input_dispatch panelSel none true true KEY_F2).2.2.2.2.1 rfl,
   (C6_tree_gui_input_dispatch panelSel none false false KEY_DELETE).2.2.2.1 rfl,
   (C6_tree_gui_input_dispatch panelSel none true false 0).2.2.2.2.2⟩

/-- C7 counterexample: on the orchestration with zero event names,
`update` inserts the placeholder and returns early, so the base-class
update is not invoked — refuting the claim that the base-class deferral
happens in the empty case as well. -/
theorem C7_counterexample_empty_skips_base_update :
    (panelEmpty.update tree0).2 = false := by
  rw [update_eq_of_nil panelEmpty tree0 rfl]

/-- C7 amended: every call to `update` ends by invoking the base-class
update exactly when the orchestration reports at least one custom event
name; in the empty case the placeholder is inserted and the function
returns early without the base-class call. -/
theorem C7_base_update_iff_nonempty (p : OrchestratorScriptCustomEventsComponentPanel)
    (t : UITree) :
    (p.update t).2 = true ↔ p.orchestration.get_custom_event_names ≠ [] := by
  constructor
  · intro hflag hnil
    rw [update_eq_of_nil p t hnil] at hflag
    simp at hflag
  · intro h
    rw [update_eq_of_ne_nil p t h]

/-- C8: the add handler records exactly one `create_custom_event`
invocation with the given name and returns true exactly when the returned
event handle is a valid reference. -/
theorem C8_add_new_item_success_iff_valid (p : OrchestratorScriptCustomEventsComponentPanel)
    (p_name : String) :
    (p._handle_add_new_item p_name).2 = [Effect.createCustomEvent p_name] ∧
    ((p._handle_add_new_item p_name).1 = true ↔
      p.orchestration.create_custom_event p_name ≠ none) := by
  refine ⟨rfl, ?_⟩
  cases hr : p.orchestration.create_custom_event p_name <;>
    simp [_handle_add_new_item, Ref.is_valid, hr]

/-- C9: item selection and item activation are behaviourally equivalent:
when the selected item and the activated item carry the same name, both
handlers fetch that custom event and open it in the editor's inspector,
producing identical effect traces. -/
theorem C9_selected_activated_equivalent (p : OrchestratorScriptCustomEventsComponentPanel)
    (item p_item : TreeItem) (hsel : p.treeSelected = some item)
    (hname : _get_tree_item_name item = _get_tree_item_name p_item) :
    p._handle_item_selected = p._handle_item_activated p_item := by
  simp [_handle_item_selected, _handle_item_activated, hsel, hname]

/-- C9 witness: on the concrete panel with "foo" selected, selection and
activation of the "foo" item produce the same effect trace. -/
theorem C9_selected_activated_equivalent_witness :
    panelSel.treeSelected = some itemFoo ∧
    panelSel._handle_item_selected = panelSel._handle_item_activated itemFoo :=
  ⟨rfl, C9_selected_activated_equivalent panelSel itemFoo itemFoo rfl rfl⟩

end CustomEventsPanel
